import Mathlib

/-!
Verification development for the pronestheus repository (klyubin/pronestheus).

Shallow embedding of:
- `src/pkg/collectors/nestapp/nestapp.go` (Sensor/App reader: session lifecycle in
  `Collector.reauth` / `Collector.getReadings`, and the three-pass parsing of the
  `updated_buckets` array);
- `src/pkg/collectors/nest/nest.go` (Thermostat reader: `Collector.getNestReadings`
  and `Collector.Collect`);
- the space-to-dash default wiring in `src/pkg/pronestheus.go` (`registerNestCollector`).

Conventions of the embedding:
- Go `float64` readings are carried as `Rat`; the `math.NaN()` sentinel used by the
  source for "no value" (heat setpoint, outside temperature) is represented as
  `Option Rat` with `none` for the sentinel, since the sentinel is only ever produced
  and consumed via `math.IsNaN` checks in the source.
- Go `time.Time` instants are carried as `Int` seconds; `time.Now()` results are
  explicit parameters (`now1` for the check at nestapp.go:254, `now2` for the check
  at nestapp.go:261).
- HTTP round trips are oracles passed in as function arguments; their results are the
  parsed shapes the source extracts with gjson.
- Go `map[string]T` is an association list with overwrite-on-insert, since the claims
  under study never depend on Go's (randomized) map iteration order.
-/

/-! ## String helpers (embedding strings.HasPrefix / TrimPrefix / Contains / Replace) -/

/-- `listHasPre s p`: `p` is a prefix of `s` (character lists). -/
def listHasPre : List Char → List Char → Bool
  | _, [] => true
  | [], _ :: _ => false
  | c :: s, p :: ps => c == p && listHasPre s ps

/-- Embeds Go `strings.HasPrefix s pre`. -/
def strHasPre (s pre : String) : Bool :=
  listHasPre s.data pre.data

/-- Embeds Go `strings.TrimPrefix s pre`. -/
def strTrimPre (s pre : String) : String :=
  if strHasPre s pre then String.mk (s.data.drop pre.data.length) else s

/-- `listContainsSub p s`: `p` occurs as a contiguous sublist of `s`. -/
def listContainsSub (p : List Char) : List Char → Bool
  | [] => listHasPre [] p
  | c :: rest => listHasPre (c :: rest) p || listContainsSub p rest

/-- Embeds Go `strings.Contains s sub`. -/
def strContainsSub (s sub : String) : Bool :=
  listContainsSub sub.data s.data

/-- Embeds Go `strings.Replace s " " "-" -1` (nest.go:145): the old and new strings
are single characters, so replacing every non-overlapping occurrence is a
character-wise map. -/
def goReplaceSpaceDash (s : String) : String :=
  String.mk (s.data.map (fun c => if c == ' ' then '-' else c))

/-! ## Association-list maps (embedding Go `map[string]T`) -/

/-- Insert with overwrite, preserving the position of an existing key. -/
def mapInsert {α : Type} (k : String) (v : α) : List (String × α) → List (String × α)
  | [] => [(k, v)]
  | (k', v') :: rest => if k' = k then (k, v) :: rest else (k', v') :: mapInsert k v rest

/-- Lookup. -/
def mapFind {α : Type} (k : String) : List (String × α) → Option α
  | [] => none
  | (k', v') :: rest => if k' = k then some v' else mapFind k rest

/-- Update the value at `k` in place when present; no-op when absent (embeds the
Go pattern of mutating a looked-up map entry through an interior reference). -/
def mapUpdate {α : Type} (k : String) (f : α → α) : List (String × α) → List (String × α)
  | [] => []
  | (k', v') :: rest => if k' = k then (k', f v') :: rest else (k', v') :: mapUpdate k f rest

/-! ## Thermostat reader (`src/pkg/collectors/nest/nest.go`) -/

/-- One element of the `parentRelations` array of a device (nest.go:204-208):
the `parent` path string and the `displayName` string as read by gjson
(`""` when the field is absent). -/
structure ParentRelation where
  parent : String
  displayName : String
deriving DecidableEq

/-- The fields of one element of the `devices` array that `getNestReadings`
extracts with gjson (nest.go:183-220).  String fields are `""` and numeric
fields are `0` when absent (gjson defaults); `heatCelsius` keeps the explicit
`Exists()` check of nest.go:192, so absence is `none`. -/
structure Device where
  type : String
  name : String
  heatCelsius : Option Rat
  parentRelations : List ParentRelation
  customName : String
  connectivityStatus : String
  ambientTemperatureCelsius : Rat
  ambientHumidityPercent : Rat
  hvacStatus : String
deriving DecidableEq

/-- `Thermostat` record (nest.go:33-42).  `SetpointTemp` is `Option Rat`:
the source stores `math.NaN()` for "no value" and tests it with `math.IsNaN`
(nest.go:157, nest.go:189-194). -/
structure Thermostat where
  ID : String
  Room : String
  Label : String
  Online : Bool
  AmbientTemp : Rat
  SetpointTemp : Option Rat
  Humidity : Rat
  Status : String
deriving DecidableEq

/-- Collection errors of the thermostat reader (nest.go:24-30).
`noValidDevices` is `errors.Wrap(errFailedUnmarshalling, "no valid thermostats
in devices list")` at nest.go:227. -/
inductive NestError where
  | failedRequest
  | non200 (code : Nat)
  | failedReadingBody
  | noValidDevices
deriving DecidableEq

/-- The device type accepted at nest.go:185. -/
def thermoTypeStr : String := "sdm.devices.types.THERMOSTAT"

/-- Room resolution from `parentRelations` (nest.go:196-209): the first
relation whose `parent` path contains "/rooms/" supplies `displayName`;
otherwise the room is `""`. -/
def roomOf : List ParentRelation → String
  | [] => ""
  | p :: ps => if strContainsSub p.parent "/rooms/" then p.displayName else roomOf ps

/-- The per-device body of the `devices` loop in `getNestReadings`
(nest.go:183-224): `none` means the device was skipped (not thermostat-typed). -/
def parseDevice (d : Device) : Option Thermostat :=
  if d.type ≠ thermoTypeStr then none
  else some
    { ID := d.name
      Room := roomOf d.parentRelations
      Label := d.customName
      Online := d.connectivityStatus = "ONLINE"
      AmbientTemp := d.ambientTemperatureCelsius
      SetpointTemp := d.heatCelsius
      Humidity := d.ambientHumidityPercent
      Status := d.hvacStatus }

/-- All thermostats appended by the loop, in device order. -/
def parseDevices (ds : List Device) : List Thermostat :=
  ds.filterMap parseDevice

/-- `getNestReadings` after a successful HTTP exchange (nest.go:183-230):
parse the `devices` array and fail when no thermostat survived the filter
(nest.go:226-228). -/
def getNestReadings (ds : List Device) : Except NestError (List Thermostat) :=
  let thermostats := parseDevices ds
  if thermostats.length = 0 then Except.error NestError.noValidDevices
  else Except.ok thermostats

/-- A metric sent to the prometheus channel: descriptor name, gauge value,
label values. -/
structure Metric where
  name : String
  value : Rat
  labels : List String
deriving DecidableEq

/-- Metric descriptor names built by `buildMetrics` (nest.go:109-119). -/
def nestUpName : String := "nest_up"
def nestOnlineName : String := "nest_online"
def nestAmbientName : String := "nest_ambient_temperature_celsius"
def nestSetpointName : String := "nest_setpoint_temperature_celsius"
def nestHumidityName : String := "nest_humidity_percent"
def nestHeatingName : String := "nest_heating"

/-- `b2f` (nest.go:233-238). -/
def b2f (b : Bool) : Rat :=
  if b then 1 else 0

/-- The label triple of nest.go:145: ID, Room, and the Label with every space
replaced by a dash — `strings.Replace(therm.Label, " ", "-", -1)` is applied
unconditionally. -/
def labelsOf (t : Thermostat) : List String :=
  [t.ID, t.Room, goReplaceSpaceDash t.Label]

/-- The per-thermostat body of the emission loop in `Collect` (nest.go:144-162):
always the online gauge; the remaining metrics only when the thermostat is
online, with the setpoint gauge additionally guarded by the `IsNaN` check. -/
def collectOne (t : Thermostat) : List Metric :=
  let labels := labelsOf t
  let onlineM : Metric := ⟨nestOnlineName, b2f t.Online, labels⟩
  if !t.Online then [onlineM]
  else
    [onlineM, ⟨nestAmbientName, t.AmbientTemp, labels⟩] ++
      (match t.SetpointTemp with
        | some v => [⟨nestSetpointName, v, labels⟩]
        | none => []) ++
      [⟨nestHumidityName, t.Humidity, labels⟩,
       ⟨nestHeatingName, b2f (t.Status = "HEATING"), labels⟩]

/-- `Collect` (nest.go:132-163): on a failed collection only `nest_up 0`;
on success `nest_up 1` followed by the per-thermostat metrics in order. -/
def nestCollect (r : Except NestError (List Thermostat)) : List Metric :=
  match r with
  | Except.error _ => [⟨nestUpName, 0, []⟩]
  | Except.ok ts => ⟨nestUpName, 1, []⟩ :: ts.flatMap collectOne

/-- The space-to-dash default computed by `registerNestCollector`
(pronestheus.go:91-94): `false` when the flag pointer is nil, otherwise the
flag's value. -/
def replaceSpacesWithDashesInLabelDefault (flag : Option Bool) : Bool :=
  match flag with
  | none => false
  | some b => b

/-! ## Sensor/App reader (`src/pkg/collectors/nestapp/nestapp.go`) -/

/-- The mutable session triple of the collector (nestapp.go:41-43):
`accessToken`, `accessTokenValidUntil` (as `Int` seconds), `userId`. -/
structure Session where
  accessToken : String
  userId : String
  validUntil : Int
deriving DecidableEq

/-- Collection errors of the app reader (nestapp.go:22-27), plus the
re-authentication failure wrapped at nestapp.go:262. -/
inductive AppError where
  | failedRequest
  | non200 (code : Nat)
  | failedReadingBody
  | reauthFailed
deriving DecidableEq

/-- Observable steps of one `getReadings` call, in order: the re-auth attempt
(nestapp.go:258) and the data request with the token it presents
(nestapp.go:270-279). -/
inductive AppEvent where
  | reauthAttempt
  | dataRequest (token : String)
deriving DecidableEq

/-- `Collector.reauth` (nestapp.go:78-93): the two-step exchange.  The Google
token fetch (`getGoogleAccessToken`) and the JWT issuance (`getNestJwt`,
returning the JWT, the user id and the expiration instant) are oracles.  The
returned pair is (reauth outcome, session state after the call): on failure of
either step the function returns before any of the three assignments at
nestapp.go:88-90, so the session is unchanged. -/
def reauthModel (st : Session) (googleTok : Except String String)
    (jwtRes : String → Except String (String × String × Int)) :
    Except String Unit × Session :=
  match googleTok with
  | Except.error e => (Except.error e, st)
  | Except.ok g =>
    match jwtRes g with
    | Except.error e => (Except.error e, st)
    | Except.ok (jwt, uid, expInstant) =>
      (Except.ok (), { accessToken := jwt, userId := uid, validUntil := expInstant })

/-! ### Bucket parsing (nestapp.go:294-376) -/

/-- One element of a `wheres` array inside a `where.*` bucket
(nestapp.go:318-323): the entry is used only when `where_id` exists, and its
`name` is read with the gjson default `""`. -/
structure WhereEntry where
  where_id : Option String
  name : String
deriving DecidableEq

/-- The fields of a bucket's `value` object that the three passes read with
gjson (missing strings default to `""`, missing numbers to `0`). -/
structure BucketValue where
  name : String
  wheres : List WhereEntry
  structure_id : String
  serial_number : String
  last_updated_at : Int
  current_temperature : Rat
  battery_level : Int
  where_id : String
deriving DecidableEq

/-- One element of the `updated_buckets` array: its `object_key` string and
its optional `value` object (each pass checks `value.Exists()`). -/
structure AppBucket where
  object_key : String
  value : Option BucketValue
deriving DecidableEq

/-- `Structure` record (nestapp.go:239-244).  `OutsideTemperature` is
`Option Rat`: the source initializes it to `math.NaN()` (nestapp.go:305) and
tests it with `math.IsNaN` (nestapp.go:224). -/
structure AppStructure where
  Id : String
  Name : String
  WhereNames : List (String × String)
  OutsideTemperature : Option Rat
deriving DecidableEq

/-- `NestTemperatureSensor` record (nestapp.go:230-237), with the
last-updated instant as `Int` seconds. -/
structure AppSensor where
  SerialNumber : String
  StructureName : String
  WhereName : String
  LastUpdatedAt : Int
  Temperature : Rat
  BatteryLevel : Int
deriving DecidableEq

/-- `Readings` (nestapp.go:246-249). -/
structure AppReadings where
  structures : List AppStructure
  sensors : List AppSensor
deriving DecidableEq

/-- First pass (nestapp.go:296-310): each `structure.*` bucket with a `value`
overwrites the map entry for its trimmed id with a fresh structure (empty
where-map, outdoor temperature unset). -/
def pass1Step (m : List (String × AppStructure)) (b : AppBucket) :
    List (String × AppStructure) :=
  if strHasPre b.object_key "structure." then
    match b.value with
    | some v =>
      let id := strTrimPre b.object_key "structure."
      mapInsert id
        { Id := id, Name := v.name, WhereNames := [], OutsideTemperature := none } m
    | none => m
  else m

/-- Processing of one `wheres` entry (nestapp.go:318-323): entries without a
`where_id` are skipped; others overwrite the structure's where-map. -/
def addWhere (wns : List (String × String)) (w : WhereEntry) : List (String × String) :=
  match w.where_id with
  | some wid => mapInsert wid w.name wns
  | none => wns

/-- Second pass (nestapp.go:311-328): a `where.*` bucket with a `value` whose
trimmed id is a known structure mutates that structure's where-map in place;
buckets for unknown structures are ignored. -/
def pass2Step (m : List (String × AppStructure)) (b : AppBucket) :
    List (String × AppStructure) :=
  if strHasPre b.object_key "where." then
    match b.value with
    | some v =>
      let id := strTrimPre b.object_key "where."
      match mapFind id m with
      | some _ =>
        mapUpdate id
          (fun st => { st with WhereNames := v.wheres.foldl addWhere st.WhereNames }) m
      | none => m
    | none => m
  else m

/-- The structures map after the first two passes over `updated_buckets`. -/
def structuresMap (bs : List AppBucket) : List (String × AppStructure) :=
  bs.foldl pass2Step (bs.foldl pass1Step [])

/-- The zero `Structure` produced by the unchecked map access at
nestapp.go:336 when `structure_id` is unknown: empty strings, nil where-map,
zero (not-NaN) outside temperature. -/
def zeroStructure : AppStructure :=
  { Id := "", Name := "", WhereNames := [], OutsideTemperature := some 0 }

/-- The sensor record appended for a `kryptonite.*` bucket value
(nestapp.go:336-344): structure name and where name resolve through the
structures map, with Go zero-value defaults (`""`) when the structure or the
where id is unknown. -/
def mkSensor (m : List (String × AppStructure)) (v : BucketValue) : AppSensor :=
  let st := (mapFind v.structure_id m).getD zeroStructure
  { SerialNumber := v.serial_number
    LastUpdatedAt := v.last_updated_at
    Temperature := v.current_temperature
    BatteryLevel := v.battery_level
    StructureName := st.Name
    WhereName := (mapFind v.where_id st.WhereNames).getD "" }

/-- Third pass, per bucket (nestapp.go:332-348): a sensor is appended for every
`kryptonite.*` bucket that has a `value`. -/
def sensorOf (m : List (String × AppStructure)) (b : AppBucket) : Option AppSensor :=
  if strHasPre b.object_key "kryptonite." then (b.value).map (mkSensor m) else none

/-- One entry of the `weather_for_structures` object (nestapp.go:351-367):
its key and the `current.temp_c` field when both exist. -/
structure WeatherEntry where
  key : String
  temp_c : Option Rat
deriving DecidableEq

/-- Weather pass (nestapp.go:351-367): a `structure.*`-prefixed key whose
trimmed id is a known structure gets its outside temperature set from
`current.temp_c` when present. -/
def weatherStep (m : List (String × AppStructure)) (w : WeatherEntry) :
    List (String × AppStructure) :=
  if strHasPre w.key "structure." then
    let id := strTrimPre w.key "structure."
    match mapFind id m with
    | some _ =>
      match w.temp_c with
      | some t => mapUpdate id (fun st => { st with OutsideTemperature := some t }) m
      | none => m
    | none => m
  else m

/-- The parsing part of `getReadings` (nestapp.go:294-376), applied to a decoded
response body: the three passes over `updated_buckets`, then the weather pass
(which runs after the sensors are built and cannot affect them), then the
structures list (the source iterates a Go map here, so its order is arbitrary;
this embedding uses insertion order, and no claim depends on it). -/
def getReadingsParse (bs : List AppBucket) (weather : Option (List WeatherEntry)) :
    AppReadings :=
  let m := structuresMap bs
  let sensors := bs.filterMap (sensorOf m)
  let m2 :=
    match weather with
    | some ws => ws.foldl weatherStep m
    | none => m
  { structures := m2.map Prod.snd, sensors := sensors }

/-! ### Session lifecycle in `getReadings` (nestapp.go:251-279) -/

/-- `Collector.getReadings` up to and including the data request
(nestapp.go:251-292), with the network as oracles.  `now1` is the
`time.Now()` of the margin check at nestapp.go:254, `now2` the `time.Now()`
of the expiry check at nestapp.go:261.  Returns the outcome, the session
state after the call and the ordered list of observable events.  Mirrors the
source: re-auth runs iff `!now1.Before(validUntil - 2min)`; a re-auth failure
is fatal iff `!now2.Before(validUntil)` (the session is unchanged by a failed
re-auth, so this reads the stored expiry); otherwise the data request is
issued with whatever token the session now holds. -/
def getReadingsApp (st : Session) (now1 now2 : Int)
    (googleTok : Except String String)
    (jwtRes : String → Except String (String × String × Int))
    (dataRes : String → Except AppError AppReadings) :
    Except AppError AppReadings × Session × List AppEvent :=
  if !(now1 < st.validUntil - 120) then
    match reauthModel st googleTok jwtRes with
    | (Except.error _, st1) =>
      if !(now2 < st1.validUntil) then
        (Except.error AppError.reauthFailed, st1, [AppEvent.reauthAttempt])
      else
        (dataRes st1.accessToken, st1,
          [AppEvent.reauthAttempt, AppEvent.dataRequest st1.accessToken])
    | (Except.ok _, st1) =>
      (dataRes st1.accessToken, st1,
        [AppEvent.reauthAttempt, AppEvent.dataRequest st1.accessToken])
  else
    (dataRes st.accessToken, st, [AppEvent.dataRequest st.accessToken])

/-! ## Concrete inputs used by witnesses and counterexample evaluations -/

/-- A `structure.s1` bucket naming the structure "Home". -/
def bkStruct : AppBucket :=
  { object_key := "structure.s1"
    value := some
      { name := "Home", wheres := [], structure_id := "", serial_number := ""
        last_updated_at := 0, current_temperature := 0, battery_level := 0
        where_id := "" } }

/-- A `where.s1` bucket mapping where-id "w1" to "Living Room". -/
def bkWhere : AppBucket :=
  { object_key := "where.s1"
    value := some
      { name := "", wheres := [{ where_id := some "w1", name := "Living Room" }]
        structure_id := "", serial_number := "", last_updated_at := 0
        current_temperature := 0, battery_level := 0, where_id := "" } }

/-- The value of a `kryptonite.k1` bucket owned by structure "s1", where "w1". -/
def svSensor : BucketValue :=
  { name := "", wheres := [], structure_id := "s1", serial_number := "22AA01AC123456AB"
    last_updated_at := 5, current_temperature := 21, battery_level := 79
    where_id := "w1" }

/-- The `kryptonite.k1` bucket holding `svSensor`. -/
def bkSensor : AppBucket := { object_key := "kryptonite.k1", value := some svSensor }

/-- The value of a `kryptonite.k2` bucket referencing an unknown structure. -/
def svOrphan : BucketValue :=
  { name := "", wheres := [], structure_id := "missing", serial_number := "SN2"
    last_updated_at := 7, current_temperature := 19, battery_level := 50
    where_id := "w9" }

/-- A `kryptonite.k2` bucket whose `structure_id` matches no structure bucket. -/
def bkOrphan : AppBucket := { object_key := "kryptonite.k2", value := some svOrphan }

/-- An online thermostat labelled "Living Room" (C4 evaluation input). -/
def livingRoomTherm : Thermostat :=
  { ID := "abcd1234", Room := "Living Room", Label := "Living Room", Online := true
    AmbientTemp := 23, SetpointTemp := none, Humidity := 55, Status := "OFF" }

/-- An online thermostat whose hvac status is COOLING (C8 evaluation input). -/
def coolingTherm : Thermostat :=
  { ID := "abcd1234", Room := "LR", Label := "LR", Online := true
    AmbientTemp := 23, SetpointTemp := none, Humidity := 55, Status := "COOLING" }

/-- An offline thermostat (C5 witness input). -/
def offlineTherm : Thermostat :=
  { ID := "dev1", Room := "Hall", Label := "Hallway", Online := false
    AmbientTemp := 20, SetpointTemp := some 19, Humidity := 40, Status := "HEATING" }

/-- A thermostat-typed device with no heating-setpoint trait (C6 witness input). -/
def devNoSetpoint : Device :=
  { type := "sdm.devices.types.THERMOSTAT", name := "dev2", heatCelsius := none
    parentRelations := [{ parent := "enterprises/p/structures/s/rooms/r", displayName := "Den" }]
    customName := "Den Stat", connectivityStatus := "ONLINE"
    ambientTemperatureCelsius := 22, ambientHumidityPercent := 45, hvacStatus := "OFF" }

/-- A camera-typed device (C7 witness input). -/
def devCamera : Device :=
  { type := "sdm.devices.types.CAMERA", name := "cam1", heatCelsius := none
    parentRelations := [], customName := "Cam", connectivityStatus := "ONLINE"
    ambientTemperatureCelsius := 0, ambientHumidityPercent := 0, hvacStatus := "" }

/-- A stored session used by the session-lifecycle witnesses. -/
def demoSession : Session := { accessToken := "oldtok", userId := "user1", validUntil := 1000 }

/-- A failing Google-token oracle. -/
def demoGoogleFail : Except String String := Except.error "auth endpoint down"

/-- A failing JWT-issuance oracle. -/
def demoJwtFail : String → Except String (String × String × Int) :=
  fun _ => Except.error "issue_jwt failed"

/-- A data-request oracle that always succeeds with empty readings. -/
def demoData : String → Except AppError AppReadings :=
  fun _ => Except.ok { structures := [], sensors := [] }

/-! ## Map lemmas and lemmas about the three passes -/

theorem mapFind_insert_self {α : Type} (k : String) (v : α) (m : List (String × α)) :
    mapFind k (mapInsert k v m) = some v := by
  induction m with
  | nil => simp [mapInsert, mapFind]
  | cons p rest ih =>
    obtain ⟨k', v'⟩ := p
    by_cases h : k' = k
    · simp [mapInsert, mapFind, h]
    · simp [mapInsert, mapFind, h, ih]

theorem mapFind_insert_ne {α : Type} (k k' : String) (v : α) (m : List (String × α))
    (h : k' ≠ k) : mapFind k (mapInsert k' v m) = mapFind k m := by
  induction m with
  | nil => simp [mapInsert, mapFind, h]
  | cons p rest ih =>
    obtain ⟨k₀, v₀⟩ := p
    by_cases h₀ : k₀ = k'
    · subst h₀
      simp [mapInsert, mapFind, h]
    · by_cases h₁ : k₀ = k
      · subst h₁
        simp [mapInsert, mapFind, h₀, Ne.symm h]
      · simp [mapInsert, mapFind, h₀, h₁, ih]

theorem mapFind_update_self {α : Type} (k : String) (f : α → α) (m : List (String × α)) :
    mapFind k (mapUpdate k f m) = (mapFind k m).map f := by
  induction m with
  | nil => simp [mapUpdate, mapFind]
  | cons p rest ih =>
    obtain ⟨k₀, v₀⟩ := p
    by_cases h : k₀ = k
    · simp [mapUpdate, mapFind, h]
    · simp [mapUpdate, mapFind, h, ih]

theorem mapFind_update_ne {α : Type} (k k' : String) (f : α → α) (m : List (String × α))
    (h : k' ≠ k) : mapFind k (mapUpdate k' f m) = mapFind k m := by
  induction m with
  | nil => simp [mapUpdate, mapFind]
  | cons p rest ih =>
    obtain ⟨k₀, v₀⟩ := p
    by_cases h₀ : k₀ = k'
    · subst h₀
      simp [mapUpdate, mapFind, h]
    · by_cases h₁ : k₀ = k
      · subst h₁
        simp [mapUpdate, mapFind, h₀, Ne.symm h]
      · simp [mapUpdate, mapFind, h₀, h₁, ih]

theorem mapFind_update_none {α : Type} (k k' : String) (f : α → α) (m : List (String × α))
    (h : mapFind k m = none) : mapFind k (mapUpdate k' f m) = none := by
  by_cases hk : k' = k
  · subst hk
    rw [mapFind_update_self, h]
    rfl
  · rw [mapFind_update_ne _ _ _ _ hk, h]

/-- A bucket that is not a `structure.`-bucket for id `s` (or has no value)
leaves the map entry for `s` unchanged in the first pass. -/
theorem pass1Step_other (s : String) (m : List (String × AppStructure)) (b : AppBucket)
    (h : ¬(strHasPre b.object_key "structure." = true ∧
        strTrimPre b.object_key "structure." = s ∧ b.value.isSome)) :
    mapFind s (pass1Step m b) = mapFind s m := by
  unfold pass1Step
  cases hp : strHasPre b.object_key "structure." with
  | false => simp
  | true =>
    cases hv : b.value with
    | none => simp
    | some v =>
      have hne : strTrimPre b.object_key "structure." ≠ s := by
        intro he
        exact h ⟨hp, he, by rw [hv]; rfl⟩
      simp only []
      exact mapFind_insert_ne _ _ _ _ hne

/-- If no bucket in `l` is a `structure.`-bucket for `s` with a value, the
first pass leaves the map entry for `s` unchanged. -/
theorem pass1_untouched (s : String) (l : List AppBucket)
    (h : ∀ b ∈ l, ¬(strHasPre b.object_key "structure." = true ∧
        strTrimPre b.object_key "structure." = s ∧ b.value.isSome)) :
    ∀ m, mapFind s (l.foldl pass1Step m) = mapFind s m := by
  induction l with
  | nil => intro m; rfl
  | cons b rest ih =>
    intro m
    rw [List.foldl_cons, ih (fun b' hb' => h b' (List.mem_cons_of_mem _ hb')),
      pass1Step_other s m b (h b (List.mem_cons_self _ _))]

/-- If some `structure.`-bucket for `s` with a value occurs in `l` and all of
them carry the name `n`, the first pass resolves `s` to the fresh structure
named `n`. -/
theorem pass1_resolves (s n : String) (l : List AppBucket)
    (hall : ∀ b ∈ l, strHasPre b.object_key "structure." = true →
        strTrimPre b.object_key "structure." = s →
        ∀ v, b.value = some v → v.name = n)
    (hex : ∃ b ∈ l, strHasPre b.object_key "structure." = true ∧
        strTrimPre b.object_key "structure." = s ∧ b.value.isSome) :
    ∀ m, mapFind s (l.foldl pass1Step m) =
      some { Id := s, Name := n, WhereNames := [], OutsideTemperature := none } := by
  induction l with
  | nil =>
    obtain ⟨b, hb, _⟩ := hex
    cases hb
  | cons b rest ih =>
    intro m
    rw [List.foldl_cons]
    have hallrest : ∀ b' ∈ rest, strHasPre b'.object_key "structure." = true →
        strTrimPre b'.object_key "structure." = s →
        ∀ v, b'.value = some v → v.name = n :=
      fun b' hb' => hall b' (List.mem_cons_of_mem _ hb')
    by_cases hc : strHasPre b.object_key "structure." = true ∧
        strTrimPre b.object_key "structure." = s ∧ b.value.isSome
    · obtain ⟨hp, htr, hs⟩ := hc
      obtain ⟨v, hv⟩ := Option.isSome_iff_exists.mp hs
      have hn : v.name = n := hall b (List.mem_cons_self _ _) hp htr v hv
      have hstep : pass1Step m b =
          mapInsert s { Id := s, Name := n, WhereNames := [], OutsideTemperature := none } m := by
        unfold pass1Step
        rw [hp, hv]
        simp [htr, hn]
      rw [hstep]
      by_cases hex' : ∃ b' ∈ rest, strHasPre b'.object_key "structure." = true ∧
          strTrimPre b'.object_key "structure." = s ∧ b'.value.isSome
      · exact ih hallrest hex' _
      · rw [pass1_untouched s rest
            (fun b' hb' hc' => hex' ⟨b', hb', hc'⟩) _]
        exact mapFind_insert_self _ _ _
    · have hex' : ∃ b' ∈ rest, strHasPre b'.object_key "structure." = true ∧
          strTrimPre b'.object_key "structure." = s ∧ b'.value.isSome := by
        obtain ⟨b', hb', hprops⟩ := hex
        rcases List.mem_cons.mp hb' with heq | hmem
        · exact absurd (heq ▸ hprops) hc
        · exact ⟨b', hmem, hprops⟩
      exact ih hallrest hex' (pass1Step m b)

/-- Folding `addWhere` preserves an already-established binding of `w` to `wn`,
provided every processed entry for `w` also carries `wn`. -/
theorem addWhere_fold_preserve (w wn : String) (es : List WhereEntry)
    (hall : ∀ e ∈ es, e.where_id = some w → e.name = wn) :
    ∀ wns, mapFind w wns = some wn → mapFind w (es.foldl addWhere wns) = some wn := by
  induction es with
  | nil => intro wns h; exact h
  | cons e rest ih =>
    intro wns h
    rw [List.foldl_cons]
    refine ih (fun e' he' => hall e' (List.mem_cons_of_mem _ he')) _ ?_
    unfold addWhere
    cases hw : e.where_id with
    | none => exact h
    | some wid =>
      by_cases hww : wid = w
      · subst hww
        rw [hall e (List.mem_cons_self _ _) hw, mapFind_insert_self]
      · rw [mapFind_insert_ne _ _ _ _ hww, h]

/-- Folding `addWhere` over entries none of which bind `w` leaves the binding
of `w` unchanged. -/
theorem addWhere_fold_skip (w : String) (es : List WhereEntry)
    (hnone : ∀ e ∈ es, e.where_id ≠ some w) :
    ∀ wns, mapFind w (es.foldl addWhere wns) = mapFind w wns := by
  induction es with
  | nil => intro wns; rfl
  | cons e rest ih =>
    intro wns
    rw [List.foldl_cons, ih (fun e' he' => hnone e' (List.mem_cons_of_mem _ he'))]
    unfold addWhere
    cases hw : e.where_id with
    | none => rfl
    | some wid =>
      have hww : wid ≠ w := by
        intro he
        exact hnone e (List.mem_cons_self _ _) (he ▸ hw)
      exact mapFind_insert_ne _ _ _ _ hww

/-- Folding `addWhere` over entries that include a binding of `w`, all of which
carry the name `wn`, establishes `w ↦ wn`. -/
theorem addWhere_fold_sets (w wn : String) (es : List WhereEntry)
    (hall : ∀ e ∈ es, e.where_id = some w → e.name = wn)
    (hex : ∃ e ∈ es, e.where_id = some w) :
    ∀ wns, mapFind w (es.foldl addWhere wns) = some wn := by
  induction es with
  | nil =>
    obtain ⟨e, he, _⟩ := hex
    cases he
  | cons e rest ih =>
    intro wns
    rw [List.foldl_cons]
    have hallrest : ∀ e' ∈ rest, e'.where_id = some w → e'.name = wn :=
      fun e' he' => hall e' (List.mem_cons_of_mem _ he')
    by_cases hw : e.where_id = some w
    · have hset : mapFind w (addWhere wns e) = some wn := by
        unfold addWhere
        rw [hw, hall e (List.mem_cons_self _ _) hw, mapFind_insert_self]
      exact addWhere_fold_preserve w wn rest hallrest _ hset
    · have hex' : ∃ e' ∈ rest, e'.where_id = some w := by
        obtain ⟨e', he', hprop⟩ := hex
        rcases List.mem_cons.mp he' with heq | hmem
        · exact absurd (heq ▸ hprop) hw
        · exact ⟨e', hmem, hprop⟩
      exact ih hallrest hex' (addWhere wns e)

/-- `pass2Step` equation: bucket without the `where.` key prefix. -/
theorem pass2Step_not_where (m : List (String × AppStructure)) (b : AppBucket)
    (h : strHasPre b.object_key "where." = false) : pass2Step m b = m := by
  simp [pass2Step, h]

/-- `pass2Step` equation: bucket without a `value`. -/
theorem pass2Step_no_value (m : List (String × AppStructure)) (b : AppBucket)
    (h : b.value = none) : pass2Step m b = m := by
  unfold pass2Step
  cases hp : strHasPre b.object_key "where." <;> simp [h]

/-- `pass2Step` equation: `where.` bucket for an id absent from the map. -/
theorem pass2Step_unknown (m : List (String × AppStructure)) (b : AppBucket)
    (v : BucketValue) (hp : strHasPre b.object_key "where." = true)
    (hv : b.value = some v)
    (hm : mapFind (strTrimPre b.object_key "where.") m = none) : pass2Step m b = m := by
  simp [pass2Step, hp, hv, hm]

/-- `pass2Step` equation: `where.` bucket for a known id rewrites that
structure's where-map. -/
theorem pass2Step_hit (m : List (String × AppStructure)) (b : AppBucket)
    (v : BucketValue) (st0 : AppStructure)
    (hp : strHasPre b.object_key "where." = true) (hv : b.value = some v)
    (hm : mapFind (strTrimPre b.object_key "where.") m = some st0) :
    pass2Step m b = mapUpdate (strTrimPre b.object_key "where.")
      (fun st => { st with WhereNames := v.wheres.foldl addWhere st.WhereNames }) m := by
  simp [pass2Step, hp, hv, hm]

/-- Whatever the second pass does with a bucket, the map entry for `s` keeps
its `Name` (and its presence): `pass2Step` only rewrites `WhereNames`. -/
theorem pass2Step_keeps_name (s : String) (m : List (String × AppStructure))
    (b : AppBucket) (st : AppStructure) (h : mapFind s m = some st) :
    ∃ st', mapFind s (pass2Step m b) = some st' ∧ st'.Name = st.Name := by
  cases hp : strHasPre b.object_key "where." with
  | false => exact ⟨st, by rw [pass2Step_not_where m b hp, h], rfl⟩
  | true =>
    cases hv : b.value with
    | none => exact ⟨st, by rw [pass2Step_no_value m b hv, h], rfl⟩
    | some v =>
      cases hm : mapFind (strTrimPre b.object_key "where.") m with
      | none => exact ⟨st, by rw [pass2Step_unknown m b v hp hv hm, h], rfl⟩
      | some st0 =>
        by_cases hid : strTrimPre b.object_key "where." = s
        · refine ⟨{ st with WhereNames := v.wheres.foldl addWhere st.WhereNames }, ?_, rfl⟩
          rw [pass2Step_hit m b v st0 hp hv hm, hid, mapFind_update_self, h]
          rfl
        · exact ⟨st, by
            rw [pass2Step_hit m b v st0 hp hv hm, mapFind_update_ne _ _ _ _ hid, h], rfl⟩

/-- The second pass never creates a map entry: a key absent before the fold is
absent after it. -/
theorem pass2_preserves_none (s : String) (l : List AppBucket) :
    ∀ m, mapFind s m = none → mapFind s (l.foldl pass2Step m) = none := by
  induction l with
  | nil => intro m h; exact h
  | cons b rest ih =>
    intro m h
    rw [List.foldl_cons]
    refine ih _ ?_
    cases hp : strHasPre b.object_key "where." with
    | false => rw [pass2Step_not_where m b hp]; exact h
    | true =>
      cases hv : b.value with
      | none => rw [pass2Step_no_value m b hv]; exact h
      | some v =>
        cases hm : mapFind (strTrimPre b.object_key "where.") m with
        | none => rw [pass2Step_unknown m b v hp hv hm]; exact h
        | some st0 =>
          rw [pass2Step_hit m b v st0 hp hv hm]
          exact mapFind_update_none _ _ _ _ h

/-- Once the entry for `s` binds `w ↦ wn`, the rest of the second pass keeps
that binding (all later `where.`-buckets for `s` carry `wn` for `w`). -/
theorem pass2_preserve_binding (s w wn : String) (l : List AppBucket)
    (hall : ∀ b ∈ l, strHasPre b.object_key "where." = true →
        strTrimPre b.object_key "where." = s →
        ∀ v, b.value = some v → ∀ e ∈ v.wheres, e.where_id = some w → e.name = wn) :
    ∀ m st, mapFind s m = some st → mapFind w st.WhereNames = some wn →
      ∃ st', mapFind s (l.foldl pass2Step m) = some st' ∧
        st'.Name = st.Name ∧ mapFind w st'.WhereNames = some wn := by
  induction l with
  | nil => intro m st h hw; exact ⟨st, h, rfl, hw⟩
  | cons b rest ih =>
    intro m st h hw
    rw [List.foldl_cons]
    have hallrest : ∀ b' ∈ rest, strHasPre b'.object_key "where." = true →
        strTrimPre b'.object_key "where." = s →
        ∀ v, b'.value = some v → ∀ e ∈ v.wheres, e.where_id = some w → e.name = wn :=
      fun b' hb' => hall b' (List.mem_cons_of_mem _ hb')
    cases hp : strHasPre b.object_key "where." with
    | false =>
      rw [pass2Step_not_where m b hp]
      exact ih hallrest m st h hw
    | true =>
      cases hv : b.value with
      | none =>
        rw [pass2Step_no_value m b hv]
        exact ih hallrest m st h hw
      | some v =>
        cases hm : mapFind (strTrimPre b.object_key "where.") m with
        | none =>
          rw [pass2Step_unknown m b v hp hv hm]
          exact ih hallrest m st h hw
        | some st0 =>
          by_cases hid : strTrimPre b.object_key "where." = s
          · have hfind : mapFind s (pass2Step m b) =
                some { st with WhereNames := v.wheres.foldl addWhere st.WhereNames } := by
              rw [pass2Step_hit m b v st0 hp hv hm, hid, mapFind_update_self, h]
              rfl
            refine ih hallrest (pass2Step m b)
              { st with WhereNames := v.wheres.foldl addWhere st.WhereNames } hfind ?_
            exact addWhere_fold_preserve w wn v.wheres
              (fun e he => hall b (List.mem_cons_self _ _) hp hid v hv e he) _ hw
          · have hfind : mapFind s (pass2Step m b) = some st := by
              rw [pass2Step_hit m b v st0 hp hv hm, mapFind_update_ne _ _ _ _ hid, h]
            exact ih hallrest _ _ hfind hw

/-- If some `where.`-bucket for `s` in `l` binds `w` (and all of them that bind
`w` name it `wn`), the second pass resolves `w ↦ wn` inside the entry for `s`,
keeping the structure's name. -/
theorem pass2_resolves (s w wn : String) (l : List AppBucket)
    (hall : ∀ b ∈ l, strHasPre b.object_key "where." = true →
        strTrimPre b.object_key "where." = s →
        ∀ v, b.value = some v → ∀ e ∈ v.wheres, e.where_id = some w → e.name = wn)
    (hex : ∃ b ∈ l, strHasPre b.object_key "where." = true ∧
        strTrimPre b.object_key "where." = s ∧
        ∃ v, b.value = some v ∧ ∃ e ∈ v.wheres, e.where_id = some w) :
    ∀ m st, mapFind s m = some st →
      ∃ st', mapFind s (l.foldl pass2Step m) = some st' ∧
        st'.Name = st.Name ∧ mapFind w st'.WhereNames = some wn := by
  induction l with
  | nil =>
    obtain ⟨b, hb, _⟩ := hex
    cases hb
  | cons b rest ih =>
    intro m st h
    rw [List.foldl_cons]
    have hallrest : ∀ b' ∈ rest, strHasPre b'.object_key "where." = true →
        strTrimPre b'.object_key "where." = s →
        ∀ v, b'.value = some v → ∀ e ∈ v.wheres, e.where_id = some w → e.name = wn :=
      fun b' hb' => hall b' (List.mem_cons_of_mem _ hb')
    by_cases hc : strHasPre b.object_key "where." = true ∧
        strTrimPre b.object_key "where." = s ∧
        ∃ v, b.value = some v ∧ ∃ e ∈ v.wheres, e.where_id = some w
    · obtain ⟨hp, hid, v, hv, hwex⟩ := hc
      have hm : mapFind (strTrimPre b.object_key "where.") m = some st := by
        rw [hid]; exact h
      have hfind : mapFind s (pass2Step m b) =
          some { st with WhereNames := v.wheres.foldl addWhere st.WhereNames } := by
        rw [pass2Step_hit m b v st hp hv hm, hid, mapFind_update_self, h]
        rfl
      have hbind : mapFind w (v.wheres.foldl addWhere st.WhereNames) = some wn :=
        addWhere_fold_sets w wn v.wheres
          (fun e he => hall b (List.mem_cons_self _ _) hp hid v hv e he) hwex _
      obtain ⟨st', hst', hname, hw'⟩ :=
        pass2_preserve_binding s w wn rest hallrest _ _ hfind hbind
      exact ⟨st', hst', hname, hw'⟩
    · obtain ⟨st1, hst1, hname1⟩ := pass2Step_keeps_name s m b st h
      have hex' : ∃ b' ∈ rest, strHasPre b'.object_key "where." = true ∧
          strTrimPre b'.object_key "where." = s ∧
          ∃ v, b'.value = some v ∧ ∃ e ∈ v.wheres, e.where_id = some w := by
        obtain ⟨b', hb', hprops⟩ := hex
        rcases List.mem_cons.mp hb' with heq | hmem
        · exact absurd (heq ▸ hprops) hc
        · exact ⟨b', hmem, hprops⟩
      obtain ⟨st', hst', hname', hw'⟩ := ih hallrest hex' _ _ hst1
      exact ⟨st', hst', hname'.trans hname1, hw'⟩

/-! ## Session lifecycle lemmas and claims -/

/-- A failed re-auth returns before any assignment, so the session survives. -/
theorem reauthModel_fail_state (st : Session) (g : Except String String)
    (j : String → Except String (String × String × Int)) (e : String)
    (h : (reauthModel st g j).1 = Except.error e) : (reauthModel st g j).2 = st := by
  cases g with
  | error e' => rfl
  | ok gt =>
    cases hj : j gt with
    | error e' => simp [reauthModel, hj]
    | ok trip => simp [reauthModel, hj] at h

/-- Claim C9: the Sensor/App reader's session (token, user identifier, expiry
instant) is only ever replaced as a whole by a successful re-authentication;
if re-authentication fails at either step (Google token fetch or JWT
issuance), none of the three session fields is modified. -/
theorem session_replaced_wholesale (st : Session) (g : Except String String)
    (j : String → Except String (String × String × Int)) :
    (∀ e, (reauthModel st g j).1 = Except.error e → (reauthModel st g j).2 = st) ∧
    ((reauthModel st g j).1 = Except.ok () →
      ∃ gt jwt uid expInstant, g = Except.ok gt ∧
        j gt = Except.ok (jwt, uid, expInstant) ∧
        (reauthModel st g j).2 =
          { accessToken := jwt, userId := uid, validUntil := expInstant }) := by
  constructor
  · intro e he
    exact reauthModel_fail_state st g j e he
  · intro hok
    cases g with
    | error e => simp [reauthModel] at hok
    | ok gt =>
      cases hj : j gt with
      | error e => simp [reauthModel, hj] at hok
      | ok trip =>
        obtain ⟨jwt, uid, ex⟩ := trip
        exact ⟨gt, jwt, uid, ex, rfl, hj, by simp [reauthModel, hj]⟩

/-- Witness for C9 at a concrete failing re-auth. -/
theorem session_replaced_wholesale_witness :
    (reauthModel demoSession demoGoogleFail demoJwtFail).2 = demoSession :=
  (session_replaced_wholesale demoSession demoGoogleFail demoJwtFail).1
    "auth endpoint down" rfl

/-- Claim C2: `getReadings` performs re-authentication before the data request
exactly when `now ≥ storedExpiry − 2 minutes`; when it is performed, it comes
first in the event order. -/
theorem reauth_exactly_at_margin (st : Session) (now1 now2 : Int)
    (g : Except String String) (j : String → Except String (String × String × Int))
    (d : String → Except AppError AppReadings) :
    (AppEvent.reauthAttempt ∈ (getReadingsApp st now1 now2 g j d).2.2 ↔
      st.validUntil - 120 ≤ now1) ∧
    (st.validUntil - 120 ≤ now1 →
      ∃ rest, (getReadingsApp st now1 now2 g j d).2.2 = AppEvent.reauthAttempt :: rest) := by
  by_cases hm : now1 < st.validUntil - 120
  · have hn : ¬ (st.validUntil - 120 ≤ now1) := by omega
    constructor
    · constructor
      · intro hmem
        exfalso
        simp [getReadingsApp, hm] at hmem
      · intro hle
        exact absurd hle hn
    · intro hle
      exact absurd hle hn
  · have hle : st.validUntil - 120 ≤ now1 := by omega
    have hevents : ∃ rest, (getReadingsApp st now1 now2 g j d).2.2 =
        AppEvent.reauthAttempt :: rest := by
      rcases hr : reauthModel st g j with ⟨r, st1⟩
      cases r with
      | error e =>
        by_cases h2 : now2 < st1.validUntil
        · exact ⟨[AppEvent.dataRequest st1.accessToken],
            by simp [getReadingsApp, hm, hr, h2]⟩
        · exact ⟨[], by simp [getReadingsApp, hm, hr, h2]⟩
      | ok u =>
        exact ⟨[AppEvent.dataRequest st1.accessToken], by simp [getReadingsApp, hm, hr]⟩
    obtain ⟨rest, hev⟩ := hevents
    constructor
    · rw [hev]
      simp [hle]
    · intro _
      exact ⟨rest, hev⟩

/-- Witness for C2: stored expiry 60 seconds ahead of `now` triggers re-auth. -/
theorem reauth_exactly_at_margin_witness :
    AppEvent.reauthAttempt ∈
      (getReadingsApp demoSession 940 940 demoGoogleFail demoJwtFail demoData).2.2 :=
  ((reauth_exactly_at_margin demoSession 940 940 demoGoogleFail demoJwtFail
      demoData).1).mpr (by decide)

/-- Claim C1: when re-auth fails inside the 2-minute margin but before the
stored expiry, `getReadings` proceeds with the old token (its outcome is
exactly the data request's outcome); when re-auth fails at or past the stored
expiry, it returns the re-authentication error and never issues the data
request. -/
theorem reauth_failure_grace_or_fatal (st : Session) (now1 now2 : Int)
    (g : Except String String) (j : String → Except String (String × String × Int))
    (d : String → Except AppError AppReadings) (e : String)
    (hmargin : st.validUntil - 120 ≤ now1)
    (hfail : (reauthModel st g j).1 = Except.error e) :
    (now2 < st.validUntil →
      (getReadingsApp st now1 now2 g j d).1 = d st.accessToken ∧
      AppEvent.dataRequest st.accessToken ∈ (getReadingsApp st now1 now2 g j d).2.2) ∧
    (st.validUntil ≤ now2 →
      (getReadingsApp st now1 now2 g j d).1 = Except.error AppError.reauthFailed ∧
      ∀ tok, AppEvent.dataRequest tok ∉ (getReadingsApp st now1 now2 g j d).2.2) := by
  have hm : ¬ (now1 < st.validUntil - 120) := by omega
  have hpres : (reauthModel st g j).2 = st := reauthModel_fail_state st g j e hfail
  rcases hr : reauthModel st g j with ⟨r, st1⟩
  have hst1 : st1 = st := by
    rw [hr] at hpres
    exact hpres
  subst hst1
  have hre : r = Except.error e := by
    rw [hr] at hfail
    exact hfail
  subst hre
  constructor
  · intro h2
    constructor
    · simp [getReadingsApp, hm, hr, h2]
    · simp [getReadingsApp, hm, hr, h2]
  · intro h2
    have h2' : ¬ (now2 < st1.validUntil) := by omega
    constructor
    · simp [getReadingsApp, hm, hr, h2']
    · intro tok
      simp [getReadingsApp, hm, hr, h2']

/-- Witness for C1: both scenarios at concrete times around expiry 1000. -/
theorem reauth_failure_grace_or_fatal_witness :
    (getReadingsApp demoSession 940 940 demoGoogleFail demoJwtFail demoData).1 =
      demoData demoSession.accessToken ∧
    (getReadingsApp demoSession 1100 1100 demoGoogleFail demoJwtFail demoData).1 =
      Except.error AppError.reauthFailed := by
  constructor
  · exact ((reauth_failure_grace_or_fatal demoSession 940 940 demoGoogleFail demoJwtFail
      demoData "auth endpoint down" (by decide) rfl).1 (by decide)).1
  · exact ((reauth_failure_grace_or_fatal demoSession 1100 1100 demoGoogleFail demoJwtFail
      demoData "auth endpoint down" (by decide) rfl).2 (by decide)).1

/-! ## Thermostat reader claims -/

/-- A thermostat whose setpoint is "no value" never yields the setpoint gauge. -/
theorem collectOne_no_setpoint (t : Thermostat) (h : t.SetpointTemp = none) :
    ∀ m ∈ collectOne t, m.name ≠ nestSetpointName := by
  intro m hm
  cases ho : t.Online with
  | false =>
    simp [collectOne, ho] at hm
    subst hm
    show nestOnlineName ≠ nestSetpointName
    decide
  | true =>
    simp [collectOne, ho, h] at hm
    rcases hm with rfl | rfl | rfl | rfl
    · show nestOnlineName ≠ nestSetpointName
      decide
    · show nestAmbientName ≠ nestSetpointName
      decide
    · show nestHumidityName ≠ nestSetpointName
      decide
    · show nestHeatingName ≠ nestSetpointName
      decide

/-- Claim C5: a thermostat parsed with online=false yields exactly its online
gauge with value 0 in the emission loop, and `Collect` is the up gauge
followed by the per-thermostat emissions. -/
theorem offline_thermostat_only_online_gauge (ts : List Thermostat) (t : Thermostat)
    (hoff : t.Online = false) :
    collectOne t = [{ name := nestOnlineName, value := 0, labels := labelsOf t }] ∧
    nestCollect (Except.ok ts) =
      { name := nestUpName, value := 1, labels := [] } :: ts.flatMap collectOne := by
  refine ⟨?_, rfl⟩
  simp [collectOne, hoff, b2f]

/-- Witness for C5 at a concrete offline thermostat. -/
theorem offline_thermostat_only_online_gauge_witness :
    collectOne offlineTherm =
      [{ name := nestOnlineName, value := 0, labels := labelsOf offlineTherm }] :=
  (offline_thermostat_only_online_gauge [] offlineTherm rfl).1

/-- Claim C6: a thermostat-typed device with an absent heating-setpoint trait
still makes collection succeed, its parsed setpoint is "no value" (not zero,
not an error), and no setpoint gauge is emitted for it. -/
theorem absent_setpoint_is_no_value (ds : List Device) (d : Device) (hd : d ∈ ds)
    (hty : d.type = thermoTypeStr) (hsp : d.heatCelsius = none) :
    ∃ ts, getNestReadings ds = Except.ok ts ∧
      ∃ t ∈ ts, parseDevice d = some t ∧ t.SetpointTemp = none ∧
        ∀ m ∈ collectOne t, m.name ≠ nestSetpointName := by
  have hpd : parseDevice d = some
      { ID := d.name, Room := roomOf d.parentRelations, Label := d.customName,
        Online := d.connectivityStatus = "ONLINE",
        AmbientTemp := d.ambientTemperatureCelsius,
        SetpointTemp := d.heatCelsius, Humidity := d.ambientHumidityPercent,
        Status := d.hvacStatus } := by
    simp [parseDevice, hty]
  have htmem := List.mem_filterMap.mpr ⟨d, hd, hpd⟩
  have hne : parseDevices ds ≠ [] := List.ne_nil_of_mem htmem
  have hlen : ¬ (parseDevices ds).length = 0 := by
    simpa [List.length_eq_zero] using hne
  exact ⟨parseDevices ds, by simp [getNestReadings, hlen], _, htmem, hpd, hsp,
    collectOne_no_setpoint _ hsp⟩

/-- Witness for C6 at a concrete setpoint-less thermostat device. -/
theorem absent_setpoint_is_no_value_witness :
    ∃ ts, getNestReadings [devNoSetpoint] = Except.ok ts ∧
      ∃ t ∈ ts, parseDevice devNoSetpoint = some t ∧ t.SetpointTemp = none ∧
        ∀ m ∈ collectOne t, m.name ≠ nestSetpointName :=
  absent_setpoint_is_no_value [devNoSetpoint] devNoSetpoint (by decide) rfl rfl

/-- Claim C7: a devices array with zero thermostat-typed entries makes
collection fail with the no-valid-devices error, while each non-thermostat
entry is merely skipped (removing it from the front changes nothing). -/
theorem zero_thermostats_error (ds : List Device)
    (h : ∀ d ∈ ds, d.type ≠ thermoTypeStr) :
    getNestReadings ds = Except.error NestError.noValidDevices ∧
    ∀ (d : Device) (rest : List Device), d.type ≠ thermoTypeStr →
      getNestReadings (d :: rest) = getNestReadings rest := by
  constructor
  · have hnil : parseDevices ds = [] := by
      rw [parseDevices, List.filterMap_eq_nil_iff]
      intro d hd
      simp [parseDevice, h d hd]
    simp [getNestReadings, hnil]
  · intro d rest hd
    have hskip : parseDevice d = none := by
      simp [parseDevice, hd]
    simp [getNestReadings, parseDevices, List.filterMap_cons, hskip]

/-- Witness for C7 on a devices array holding one camera. -/
theorem zero_thermostats_error_witness :
    getNestReadings [devCamera] = Except.error NestError.noValidDevices :=
  (zero_thermostats_error [devCamera] (by decide)).1

/-- Claim C4 (code evaluation): the caller default for the space-to-dash flag
is off, yet the emission loop of nest.go:145 applies the space-to-dash
replacement unconditionally — the label "Living Room" is emitted as
"Living-Room" although `nest.Config` carries no such policy at all. -/
theorem label_dashed_despite_default_off :
    replaceSpacesWithDashesInLabelDefault none = false ∧
    labelsOf livingRoomTherm = ["abcd1234", "Living Room", "Living-Room"] ∧
    { name := nestOnlineName, value := 1,
      labels := ["abcd1234", "Living Room", "Living-Room"] : Metric } ∈
      nestCollect (Except.ok [livingRoomTherm]) := by
  decide

/-- Claim C8 (code evaluation): for an online thermostat with hvac status
COOLING, the collector emits no cooling gauge at all — only the heating gauge
(here 0) exists among the emitted metric names. -/
theorem cooling_status_no_cooling_metric :
    coolingTherm.Status = "COOLING" ∧
    (∀ m ∈ nestCollect (Except.ok [coolingTherm]), m.name ≠ "nest_cooling") ∧
    { name := nestHeatingName, value := 0, labels := ["abcd1234", "LR", "LR"] : Metric } ∈
      nestCollect (Except.ok [coolingTherm]) := by
  decide

/-! ## Bucket-parsing claims -/

/-- Claim C3: for a response whose buckets name structure `s` as `n` and bind
where-id `w` to `wn` inside `s`, every `kryptonite.*` bucket referencing `s`
and `w` is parsed into a sensor whose StructureName is `n` and whose WhereName
is `wn`, and this holds for every permutation of the bucket array. -/
theorem sensor_names_match_buckets_perm_invariant
    (bs bsp : List AppBucket) (hperm : List.Perm bs bsp)
    (s n w wn : String)
    (hsall : ∀ b ∈ bs, strHasPre b.object_key "structure." = true →
        strTrimPre b.object_key "structure." = s → ∀ v ∈ b.value, v.name = n)
    (hsex : ∃ b ∈ bs, strHasPre b.object_key "structure." = true ∧
        strTrimPre b.object_key "structure." = s ∧ b.value.isSome = true)
    (hwall : ∀ b ∈ bs, strHasPre b.object_key "where." = true →
        strTrimPre b.object_key "where." = s →
        ∀ v ∈ b.value, ∀ e ∈ v.wheres, e.where_id = some w → e.name = wn)
    (hwex : ∃ b ∈ bs, strHasPre b.object_key "where." = true ∧
        strTrimPre b.object_key "where." = s ∧
        ∃ v ∈ b.value, ∃ e ∈ v.wheres, e.where_id = some w)
    (weather : Option (List WeatherEntry)) :
    ∀ b ∈ bsp, strHasPre b.object_key "kryptonite." = true →
      ∀ v ∈ b.value, v.structure_id = s → v.where_id = w →
        (mkSensor (structuresMap bsp) v).StructureName = n ∧
        (mkSensor (structuresMap bsp) v).WhereName = wn ∧
        mkSensor (structuresMap bsp) v ∈ (getReadingsParse bsp weather).sensors := by
  intro b hb hk v hv hsid hwid
  have hsall2 : ∀ b' ∈ bsp, strHasPre b'.object_key "structure." = true →
      strTrimPre b'.object_key "structure." = s →
      ∀ v', b'.value = some v' → v'.name = n :=
    fun b' hb' hp ht v' hv' =>
      hsall b' (hperm.mem_iff.mpr hb') hp ht v' (Option.mem_def.mpr hv')
  have hsex2 : ∃ b' ∈ bsp, strHasPre b'.object_key "structure." = true ∧
      strTrimPre b'.object_key "structure." = s ∧ b'.value.isSome = true := by
    obtain ⟨b0, hb0, hprops⟩ := hsex
    exact ⟨b0, hperm.mem_iff.mp hb0, hprops⟩
  have hwall2 : ∀ b' ∈ bsp, strHasPre b'.object_key "where." = true →
      strTrimPre b'.object_key "where." = s →
      ∀ v', b'.value = some v' → ∀ e ∈ v'.wheres, e.where_id = some w → e.name = wn :=
    fun b' hb' hp ht v' hv' =>
      hwall b' (hperm.mem_iff.mpr hb') hp ht v' (Option.mem_def.mpr hv')
  have hwex2 : ∃ b' ∈ bsp, strHasPre b'.object_key "where." = true ∧
      strTrimPre b'.object_key "where." = s ∧
      ∃ v', b'.value = some v' ∧ ∃ e ∈ v'.wheres, e.where_id = some w := by
    obtain ⟨b0, hb0, hp, ht, v0, hv0, he⟩ := hwex
    exact ⟨b0, hperm.mem_iff.mp hb0, hp, ht, v0, Option.mem_def.mp hv0, he⟩
  have h1 : mapFind s (bsp.foldl pass1Step []) =
      some { Id := s, Name := n, WhereNames := [], OutsideTemperature := none } :=
    pass1_resolves s n bsp hsall2 hsex2 []
  obtain ⟨st', hst', hname, hbind⟩ :=
    pass2_resolves s w wn bsp hwall2 hwex2 (bsp.foldl pass1Step []) _ h1
  have hm : mapFind s (structuresMap bsp) = some st' := hst'
  refine ⟨?_, ?_, ?_⟩
  · simp only [mkSensor]
    rw [hsid, hm]
    exact hname
  · simp only [mkSensor]
    rw [hsid, hm, hwid]
    simp [hbind]
  · simp only [getReadingsParse]
    exact List.mem_filterMap.mpr
      ⟨b, hb, by simp [sensorOf, hk, Option.mem_def.mp hv]⟩

/-- Witness for C3 at a three-bucket response presented in reversed order. -/
theorem sensor_names_match_buckets_perm_invariant_witness :
    (mkSensor (structuresMap [bkSensor, bkWhere, bkStruct]) svSensor).StructureName =
      "Home" ∧
    (mkSensor (structuresMap [bkSensor, bkWhere, bkStruct]) svSensor).WhereName =
      "Living Room" ∧
    mkSensor (structuresMap [bkSensor, bkWhere, bkStruct]) svSensor ∈
      (getReadingsParse [bkSensor, bkWhere, bkStruct] none).sensors :=
  sensor_names_match_buckets_perm_invariant
    [bkStruct, bkWhere, bkSensor] [bkSensor, bkWhere, bkStruct] (by decide)
    "s1" "Home" "w1" "Living Room" (by decide) (by decide) (by decide) (by decide)
    none bkSensor (by decide) (by decide) svSensor rfl rfl rfl

/-- Claim C10: a `kryptonite.*` bucket whose `structure_id` matches no
`structure.*` bucket still produces a sensor record (it is neither dropped nor
an error), with empty StructureName and WhereName. -/
theorem orphan_sensor_kept_with_empty_names (bs : List AppBucket)
    (weather : Option (List WeatherEntry)) (b : AppBucket) (v : BucketValue)
    (hb : b ∈ bs) (hk : strHasPre b.object_key "kryptonite." = true)
    (hv : v ∈ b.value)
    (horph : ∀ b' ∈ bs, strHasPre b'.object_key "structure." = true →
        strTrimPre b'.object_key "structure." ≠ v.structure_id) :
    mkSensor (structuresMap bs) v ∈ (getReadingsParse bs weather).sensors ∧
    (mkSensor (structuresMap bs) v).StructureName = "" ∧
    (mkSensor (structuresMap bs) v).WhereName = "" := by
  have h1 : mapFind v.structure_id (bs.foldl pass1Step []) = none := by
    rw [pass1_untouched v.structure_id bs
      (fun b' hb' hc => horph b' hb' hc.1 hc.2.1) []]
    rfl
  have h2 : mapFind v.structure_id (structuresMap bs) = none :=
    pass2_preserves_none v.structure_id bs _ h1
  refine ⟨?_, ?_, ?_⟩
  · simp only [getReadingsParse]
    exact List.mem_filterMap.mpr
      ⟨b, hb, by simp [sensorOf, hk, Option.mem_def.mp hv]⟩
  · simp only [mkSensor]
    rw [h2]
    rfl
  · simp only [mkSensor]
    rw [h2]
    rfl

/-- Witness for C10 at a response holding only the orphan sensor bucket. -/
theorem orphan_sensor_kept_with_empty_names_witness :
    mkSensor (structuresMap [bkOrphan]) svOrphan ∈
      (getReadingsParse [bkOrphan] none).sensors ∧
    (mkSensor (structuresMap [bkOrphan]) svOrphan).StructureName = "" ∧
    (mkSensor (structuresMap [bkOrphan]) svOrphan).WhereName = "" :=
  orphan_sensor_kept_with_empty_names [bkOrphan] none bkOrphan svOrphan
    (by decide) (by decide) (by decide) (by decide)
